import Mathlib

/-!
# Smart Railway Track Inspection API — shallow embedding

This file embeds the backend of the railway track inspection service
(`main.py`, with the collection schemas of `schemas.py`) as pure Lean
functions over an explicit document-store state, and proves the spec's
claims about the mark/inspect transition logic, patching, alerting,
acknowledgement and summary aggregation.

Conventions of the embedding:
* Mongo documents become structures; each collection is a list, with the
  `tracksection` and `alert` collections carrying their generated `_id`
  as a `String` key (insertions take the generated id as an argument).
* `datetime.now(timezone.utc)` values are arguments: a `Nat` for raw
  datetime fields (`created_at`, `updated_at`) and a `String` for the
  `isoformat()` text fields (`last_check`, `inspected_at`).  `main.py`
  calls `datetime.now` several times inside one handler, so a handler
  receives one argument per call site.
* An HTTPException becomes an `Err` value; a handler returns the store
  it leaves behind together with `ApiResult`, so a raise that happens
  after some writes would return the partially written store.
* `ObjectId.is_valid` on a string is true exactly for 24 hex characters;
  `isValidOid` models that.
-/

set_option autoImplicit false

namespace Railway

/-- Section status, the `^(safe|faulty)$` pattern of `main.py`. -/
inductive Status where
  | safe
  | faulty
deriving DecidableEq, Repr

/-- A `tracksection` document (see `TrackSection` in `schemas.py` and
`create_section` in `main.py`). -/
structure Section where
  name : String
  status : Status
  color_safe : String
  color_faulty : String
  last_check : Option String
  persistent_faults : Nat
  created_at : Nat
  updated_at : Nat
deriving DecidableEq, Repr

/-- An `inspection` document, as inserted by `mark_section` and `inspect`. -/
structure Inspection where
  section_id : String
  status : Status
  detail : Option String
  inspected_at : String
  created_at : Nat
deriving DecidableEq, Repr

/-- An `alert` document, as inserted by `mark_section` and `inspect`. -/
structure Alert where
  section_id : String
  message : String
  severity : String
  acknowledged : Bool
  created_at : Nat
deriving DecidableEq, Repr

/-- The document store: the three collections the engine touches.
`tracksection` and `alert` documents are addressed by id, so those
collections are association lists keyed by the document `_id`. -/
structure Store where
  sections : List (String × Section)
  inspections : List Inspection
  alerts : List (String × Alert)
deriving DecidableEq, Repr

/-- The error taxonomy: HTTP 400 (`Invalid id`), 404 (not found), and a
marker for store-level failures that `main.py` would surface as 500s. -/
inductive Err where
  | invalidArgument
  | notFound
  | internal
deriving DecidableEq, Repr

/-- Successful response bodies of the handlers under study. -/
inductive Resp where
  | sectionDoc (s : Section)
  | created
  | updatedFalse
  | acknowledged
deriving DecidableEq, Repr

/-- Outcome of a handler: a response body or a raised `HTTPException`. -/
inductive ApiResult where
  | ok (r : Resp)
  | err (e : Err)
deriving DecidableEq, Repr

/-- Hex digit test, as accepted by `bytes.fromhex` for an ObjectId. -/
def isHexChar (c : Char) : Bool :=
  c.isDigit || (Char.ofNat 97 ≤ c && c ≤ Char.ofNat 102) ||
    (Char.ofNat 65 ≤ c && c ≤ Char.ofNat 70)

/-- `ObjectId.is_valid` for a string argument: 24 hexadecimal characters.
The `oid` helper of `main.py` raises HTTP 400 when this fails. -/
def isValidOid (s : String) : Bool :=
  s.length == 24 && s.toList.all isHexChar

/-- `find_one({"_id": id})` on an association-list collection. -/
def findDoc {α : Type} (l : List (String × α)) (id : String) : Option α :=
  (l.find? (fun p => p.1 == id)).map (fun p => p.2)

/-- `update_one({"_id": id}, {"$set": ...})`: rewrite the first document
whose key matches, leave the rest untouched. -/
def updateFirst {α : Type} (l : List (String × α)) (id : String) (f : α → α) :
    List (String × α) :=
  match l with
  | [] => []
  | p :: rest =>
      if p.1 == id then (p.1, f p.2) :: rest else p :: updateFirst rest id f

/-- The fields accepted by `SectionUpdate` in `main.py`: all optional,
`status` already constrained to the safe/faulty enum by pydantic. -/
structure SectionUpdatePayload where
  name : Option String
  status : Option Status
  color_safe : Option String
  color_faulty : Option String
deriving DecidableEq, Repr

/-- `payload.model_dump(exclude_none=True)` is nonempty. -/
def hasUpdates (p : SectionUpdatePayload) : Bool :=
  p.name.isSome || p.status.isSome || p.color_safe.isSome || p.color_faulty.isSome

/-- The `$set` document built by `update_section`: the non-`None` payload
fields plus the `updated_at` stamp. -/
def applyUpdates (s : Section) (p : SectionUpdatePayload) (now : Nat) : Section :=
  { s with
    name := p.name.getD s.name
    status := p.status.getD s.status
    color_safe := p.color_safe.getD s.color_safe
    color_faulty := p.color_faulty.getD s.color_faulty
    updated_at := now }

/-- `PATCH /api/sections/{section_id}` (`update_section` in `main.py`):
an empty update dict returns `{"updated": false}` before any id check;
otherwise the id is validated, the `$set` (with `updated_at := now`) is
applied to the matching section, a zero matched count raises 404, and the
freshly re-read section is returned. -/
def update_section (st : Store) (section_id : String)
    (p : SectionUpdatePayload) (now : Nat) : Store × ApiResult :=
  if hasUpdates p then
    if isValidOid section_id then
      match findDoc st.sections section_id with
      | none => (st, .err .notFound)
      | some s =>
          let s1 := applyUpdates s p now
          let st1 : Store := { st with sections := updateFirst st.sections section_id (fun _ => s1) }
          match findDoc st1.sections section_id with
          | some s2 => (st1, .ok (.sectionDoc s2))
          | none => (st1, .err .internal)
    else (st, .err .invalidArgument)
  else (st, .ok .updatedFalse)

/-- `POST /api/sections/{section_id}/mark` (`mark_section` in `main.py`).
Arguments beyond the path/payload stand for the handler's fresh values:
`now` is the datetime captured at entry, `lastCheckTs` and `inspectedTs`
the two later `isoformat()` calls, and `alertId` the id Mongo would
generate for an inserted alert. -/
def mark_section (st : Store) (section_id : String) (status : Status)
    (now : Nat) (lastCheckTs inspectedTs : String) (alertId : String) :
    Store × ApiResult :=
  if isValidOid section_id then
    match findDoc st.sections section_id with
    | none => (st, .err .notFound)
    | some s =>
        let is_repeat_fault := s.status == Status.faulty && status == Status.faulty
        let s1 : Section :=
          { s with
            status := status
            last_check := some lastCheckTs
            updated_at := now
            persistent_faults :=
              if is_repeat_fault then s.persistent_faults + 1 else s.persistent_faults }
        let st1 : Store := { st with sections := updateFirst st.sections section_id (fun _ => s1) }
        let insp : Inspection :=
          { section_id := section_id, status := status, detail := some "manual-mark",
            inspected_at := inspectedTs, created_at := now }
        let st2 : Store := { st1 with inspections := st1.inspections ++ [insp] }
        let st3 : Store :=
          if status == Status.faulty then
            { st2 with alerts := st2.alerts ++
                [(alertId,
                  { section_id := section_id
                    message := "Fault detected at section " ++ s.name ++ "."
                    severity := "high"
                    acknowledged := false
                    created_at := now })] }
          else st2
        let resp : ApiResult :=
          match findDoc st3.sections section_id with
          | some s2 => .ok (.sectionDoc s2)
          | none => .err .internal
        (st3, resp)
  else (st, .err .invalidArgument)

/-- `POST /api/inspect` (`inspect` in `main.py`): validates and loads the
section, inserts the inspection record first, then applies the status
update (one shared `now`, whose `isoformat()` is `nowIso`), then inserts
an alert when faulty, and answers `{"created": true}`. -/
def inspect (st : Store) (section_id : String) (status : Status)
    (detail : Option String) (now : Nat) (nowIso : String) (alertId : String) :
    Store × ApiResult :=
  if isValidOid section_id then
    match findDoc st.sections section_id with
    | none => (st, .err .notFound)
    | some s =>
        let insp : Inspection :=
          { section_id := section_id, status := status, detail := detail,
            inspected_at := nowIso, created_at := now }
        let st1 : Store := { st with inspections := st.inspections ++ [insp] }
        let is_repeat_fault := s.status == Status.faulty && status == Status.faulty
        let s1 : Section :=
          { s with
            status := status
            last_check := some nowIso
            updated_at := now
            persistent_faults :=
              if is_repeat_fault then s.persistent_faults + 1 else s.persistent_faults }
        let st2 : Store := { st1 with sections := updateFirst st1.sections section_id (fun _ => s1) }
        let st3 : Store :=
          if status == Status.faulty then
            { st2 with alerts := st2.alerts ++
                [(alertId,
                  { section_id := section_id
                    message := "Fault detected at section " ++ s.name ++ " (auto)"
                    severity := "high"
                    acknowledged := false
                    created_at := now })] }
          else st2
        (st3, .ok .created)
  else (st, .err .invalidArgument)

/-- `POST /api/alerts/ack/{alert_id}` (`ack_alert` in `main.py`). -/
def ack_alert (st : Store) (alert_id : String) : Store × ApiResult :=
  if isValidOid alert_id then
    match findDoc st.alerts alert_id with
    | none => (st, .err .notFound)
    | some _ =>
        ({ st with alerts := updateFirst st.alerts alert_id (fun a => { a with acknowledged := true }) },
         .ok .acknowledged)
  else (st, .err .invalidArgument)

/-- The filters `summary` passes to `count_documents`. -/
inductive SectionFilter where
  | all
  | statusEq (v : Status)
  | pfGte (n : Nat)
deriving DecidableEq, Repr

/-- Whether a section document matches a filter. -/
def sectionMatches (f : SectionFilter) (s : Section) : Bool :=
  match f with
  | .all => true
  | .statusEq v => s.status == v
  | .pfGte n => decide (n ≤ s.persistent_faults)

/-- `count_documents(filter)` on the `tracksection` collection. -/
def count_documents (st : Store) (f : SectionFilter) : Nat :=
  (st.sections.filter (fun p => sectionMatches f p.2)).length

/-- The body of `GET /api/summary`. -/
structure SummaryCounts where
  total : Nat
  safe : Nat
  faulty : Nat
  critical : Nat
deriving DecidableEq, Repr

/-- `GET /api/summary` (`summary` in `main.py`): four counts, no writes
(the embedding is a pure function of the store). -/
def summary (st : Store) : SummaryCounts :=
  { total := count_documents st .all
    safe := count_documents st (.statusEq .safe)
    faulty := count_documents st (.statusEq .faulty)
    critical := count_documents st (.pfGte 3) }

/-- One call to the abstract `recordObservation` operation: either the
`mark` entry point or the `inspect` entry point, with all of the
handler's fresh values packaged in the constructor. -/
inductive Obs where
  | mark (section_id : String) (status : Status) (now : Nat)
      (lastCheckTs inspectedTs : String) (alertId : String)
  | insp (section_id : String) (status : Status) (detail : Option String)
      (now : Nat) (nowIso : String) (alertId : String)
deriving DecidableEq, Repr

/-- Dispatch an observation to its handler. -/
def applyObsFull (st : Store) (o : Obs) : Store × ApiResult :=
  match o with
  | .mark id status now t1 t2 aid => mark_section st id status now t1 t2 aid
  | .insp id status d now iso aid => inspect st id status d now iso aid

/-- The store an observation leaves behind. -/
def applyObs (st : Store) (o : Obs) : Store :=
  (applyObsFull st o).1

/-- Run a sequence of observations. -/
def runObs (st : Store) (l : List Obs) : Store :=
  l.foldl applyObs st

/-- The section id an observation targets. -/
def obsTarget (o : Obs) : String :=
  match o with
  | .mark id _ _ _ _ _ => id
  | .insp id _ _ _ _ _ => id

/-- The observed status an observation reports. -/
def obsStatus (o : Obs) : Status :=
  match o with
  | .mark _ v _ _ _ _ => v
  | .insp _ v _ _ _ _ => v

/-- The datetime captured at handler entry. -/
def obsNow (o : Obs) : Nat :=
  match o with
  | .mark _ _ n _ _ _ => n
  | .insp _ _ _ n _ _ => n

/-- The `isoformat()` text stored into `last_check`. -/
def obsLastCheck (o : Obs) : String :=
  match o with
  | .mark _ _ _ t1 _ _ => t1
  | .insp _ _ _ _ iso _ => iso

/-- The id generated for an alert inserted by the observation. -/
def obsAlertId (o : Obs) : String :=
  match o with
  | .mark _ _ _ _ _ aid => aid
  | .insp _ _ _ _ _ aid => aid

/-- The section state written by an observation over current state `s`:
observed status, fresh `last_check` and `updated_at`, and the
repeat-fault increment of `persistent_faults`. -/
def obsNewSection (o : Obs) (s : Section) : Section :=
  { s with
    status := obsStatus o
    last_check := some (obsLastCheck o)
    updated_at := obsNow o
    persistent_faults :=
      if s.status == Status.faulty && obsStatus o == Status.faulty then
        s.persistent_faults + 1
      else s.persistent_faults }

/-- The inspection record an observation inserts. -/
def obsInspection (o : Obs) : Inspection :=
  match o with
  | .mark id v now _ t2 _ =>
      { section_id := id, status := v, detail := some "manual-mark",
        inspected_at := t2, created_at := now }
  | .insp id v d now iso _ =>
      { section_id := id, status := v, detail := d,
        inspected_at := iso, created_at := now }

/-- The alert an observation inserts when the observed status is faulty
(`s` is the section as loaded, whose name the message interpolates). -/
def obsAlert (o : Obs) (s : Section) : Alert :=
  match o with
  | .mark id _ now _ _ _ =>
      { section_id := id, message := "Fault detected at section " ++ s.name ++ ".",
        severity := "high", acknowledged := false, created_at := now }
  | .insp id _ _ now _ _ =>
      { section_id := id, message := "Fault detected at section " ++ s.name ++ " (auto)",
        severity := "high", acknowledged := false, created_at := now }

/-- The response of an observation on an existing section: `mark` returns
the re-read section document, `inspect` returns `{"created": true}`. -/
def obsResp (o : Obs) (s : Section) : ApiResult :=
  match o with
  | .mark _ _ _ _ _ _ => .ok (.sectionDoc (obsNewSection o s))
  | .insp _ _ _ _ _ _ => .ok .created

/-- The `persistent_faults` counter of section `id`, defaulting to 0 when
the section does not exist. -/
def pfOf (st : Store) (id : String) : Nat :=
  match findDoc st.sections id with
  | some s => s.persistent_faults
  | none => 0

/-- The persisted status of section `id`, when it exists. -/
def statusOf (st : Store) (id : String) : Option Status :=
  (findDoc st.sections id).map (fun s => s.status)

/-! ## Association-list lemmas -/

theorem findDoc_updateFirst_self {α : Type} (l : List (String × α)) (id : String) (f : α → α) :
    findDoc (updateFirst l id f) id = (findDoc l id).map f := by
  induction l with
  | nil => rfl
  | cons p rest ih =>
      by_cases h : p.1 == id
      · simp [findDoc, updateFirst, h, List.find?_cons]
      · simp only [updateFirst, h, if_false, Bool.false_eq_true]
        simpa [findDoc, List.find?_cons, h] using ih

theorem findDoc_updateFirst_ne {α : Type} (l : List (String × α)) (id k : String) (f : α → α)
    (h : k ≠ id) : findDoc (updateFirst l id f) k = findDoc l k := by
  induction l with
  | nil => rfl
  | cons p rest ih =>
      by_cases h1 : p.1 == id
      · have h2 : (p.1 == k) = false := by
          simp only [beq_iff_eq] at h1
          subst h1
          exact beq_eq_false_iff_ne.mpr (Ne.symm h)
        simp [findDoc, updateFirst, h1, h2, List.find?_cons]
      · simp only [updateFirst, h1, if_false, Bool.false_eq_true]
        by_cases h2 : p.1 == k
        · simp [findDoc, List.find?_cons, h2]
        · simpa [findDoc, List.find?_cons, h2] using ih

/-! ## Effect of one observation -/

/-- Full characterization of a `recordObservation` call (either entry
point) on an existing section with a well-formed id: the target section
is rewritten to `obsNewSection`, exactly one inspection is appended,
exactly one alert is appended iff the observed status is faulty, and the
response is the re-read section (mark) or `{"created": true}` (inspect). -/
theorem obs_found_effect (st : Store) (o : Obs) (s : Section)
    (hv : isValidOid (obsTarget o) = true)
    (hs : findDoc st.sections (obsTarget o) = some s) :
    applyObsFull st o =
      ({ sections := updateFirst st.sections (obsTarget o) (fun _ => obsNewSection o s)
         inspections := st.inspections ++ [obsInspection o]
         alerts :=
           if obsStatus o == Status.faulty then
             st.alerts ++ [(obsAlertId o, obsAlert o s)]
           else st.alerts }, obsResp o s) := by
  cases o with
  | mark id v now t1 t2 aid =>
      simp only [obsTarget] at hv hs
      have hfind := findDoc_updateFirst_self st.sections id
        (fun _ => obsNewSection (Obs.mark id v now t1 t2 aid) s)
      rw [hs] at hfind
      cases h2 : v == Status.faulty <;>
        simp_all [applyObsFull, mark_section, obsNewSection, obsInspection, obsAlert,
          obsResp, obsTarget, obsStatus, obsLastCheck, obsNow, obsAlertId, hv, hs]
  | insp id v d now iso aid =>
      simp only [obsTarget] at hv hs
      cases h2 : v == Status.faulty <;>
        simp_all [applyObsFull, inspect, obsNewSection, obsInspection, obsAlert,
          obsResp, obsTarget, obsStatus, obsLastCheck, obsNow, obsAlertId, hv, hs]

/-- A `recordObservation` call whose well-formed target id matches no
section raises 404 with the store untouched. -/
theorem obs_notfound_effect (st : Store) (o : Obs)
    (hv : isValidOid (obsTarget o) = true)
    (hn : findDoc st.sections (obsTarget o) = none) :
    applyObsFull st o = (st, .err .notFound) := by
  cases o with
  | mark id v now t1 t2 aid =>
      simp only [obsTarget] at hv hn
      simp [applyObsFull, mark_section, hv, hn]
  | insp id v d now iso aid =>
      simp only [obsTarget] at hv hn
      simp [applyObsFull, inspect, hv, hn]

/-- A `recordObservation` call with a malformed id raises 400 with the
store untouched. -/
theorem obs_invalid_effect (st : Store) (o : Obs)
    (hv : isValidOid (obsTarget o) = false) :
    applyObsFull st o = (st, .err .invalidArgument) := by
  cases o with
  | mark id v now t1 t2 aid =>
      simp only [obsTarget] at hv
      simp [applyObsFull, mark_section, hv]
  | insp id v d now iso aid =>
      simp only [obsTarget] at hv
      simp [applyObsFull, inspect, hv]

/-- One observation either leaves a section's fault counter unchanged or
increments it by one; the increment happens only at the targeted section,
only when its persisted status was already faulty and the observed status
is again faulty. -/
theorem pf_step (st : Store) (o : Obs) (id : String) :
    pfOf (applyObs st o) id = pfOf st id ∨
      (pfOf (applyObs st o) id = pfOf st id + 1 ∧ obsTarget o = id ∧
        statusOf st id = some Status.faulty ∧ obsStatus o = Status.faulty) := by
  by_cases hv : isValidOid (obsTarget o) = true
  · cases hs : findDoc st.sections (obsTarget o) with
    | none =>
        left
        simp [applyObs, obs_notfound_effect st o hv hs]
    | some s =>
        have hsec : (applyObs st o).sections =
            updateFirst st.sections (obsTarget o) (fun _ => obsNewSection o s) := by
          rw [applyObs, obs_found_effect st o s hv hs]
        by_cases hid : id = obsTarget o
        · subst hid
          have hafter : pfOf (applyObs st o) (obsTarget o) = (obsNewSection o s).persistent_faults := by
            simp [pfOf, hsec, findDoc_updateFirst_self, hs]
          have hbefore : pfOf st (obsTarget o) = s.persistent_faults := by
            simp [pfOf, hs]
          by_cases hrep : (s.status == Status.faulty && obsStatus o == Status.faulty) = true
          · right
            refine ⟨?_, rfl, ?_, ?_⟩
            · rw [hafter, hbefore]
              simp [obsNewSection, hrep]
            · simp only [Bool.and_eq_true, beq_iff_eq] at hrep
              simp [statusOf, hs, hrep.1]
            · simp only [Bool.and_eq_true, beq_iff_eq] at hrep
              exact hrep.2
          · left
            rw [Bool.not_eq_true] at hrep
            rw [hafter, hbefore]
            simp [obsNewSection, hrep]
        · left
          simp [pfOf, hsec, findDoc_updateFirst_ne st.sections (obsTarget o) id _ hid]
  · left
    rw [Bool.not_eq_true] at hv
    simp [applyObs, obs_invalid_effect st o hv]

/-- `persistent_faults` never decreases along any observation sequence. -/
theorem pf_mono_list (l : List Obs) : ∀ (st : Store) (id : String),
    pfOf st id ≤ pfOf (runObs st l) id := by
  induction l with
  | nil => intro st id; simp [runObs]
  | cons o rest ih =>
      intro st id
      have h1 : pfOf st id ≤ pfOf (applyObs st o) id := by
        rcases pf_step st o id with h | h
        · omega
        · omega
      have h2 : runObs st (o :: rest) = runObs (applyObs st o) rest := rfl
      rw [h2]
      exact le_trans h1 (ih (applyObs st o) id)

/-- C1: across any sequence of `recordObservation` calls (mark or inspect
entry points), a section's `persistent_faults` is monotonically
non-decreasing; a single call changes it only by leaving it equal or
incrementing it by one, the increment occurring only when the call
targets the section, the persisted status was already faulty and the
newly observed status is faulty — it is never reset. -/
theorem C1_persistent_faults_monotone (st : Store) (id : String) :
    (∀ l : List Obs, pfOf st id ≤ pfOf (runObs st l) id) ∧
    (∀ o : Obs, pfOf (applyObs st o) id = pfOf st id ∨
      (pfOf (applyObs st o) id = pfOf st id + 1 ∧ obsTarget o = id ∧
        statusOf st id = some Status.faulty ∧ obsStatus o = Status.faulty)) :=
  ⟨fun l => pf_mono_list l st id, fun o => pf_step st o id⟩

/-! ## Concrete sample data for witnesses and counterexamples -/

/-- A well-formed ObjectId (24 hex characters). -/
def oidA : String := "aaaaaaaaaaaaaaaaaaaaaaaa"

/-- A second well-formed ObjectId. -/
def oidB : String := "bbbbbbbbbbbbbbbbbbbbbbbb"

/-- A third well-formed ObjectId. -/
def oidC : String := "cccccccccccccccccccccccc"

/-- A sample section with the creation defaults of `create_section`,
at a chosen status and fault count. -/
def sampleSection (v : Status) (pf : Nat) : Section :=
  { name := "S1", status := v, color_safe := "#16a34a", color_faulty := "#dc2626",
    last_check := none, persistent_faults := pf, created_at := 0, updated_at := 0 }

/-- A store holding exactly one section, keyed `oidA`. -/
def store1 (v : Status) (pf : Nat) : Store :=
  { sections := [(oidA, sampleSection v pf)], inspections := [], alerts := [] }

/-- C2 fails as stated: on a section whose persisted status is already
faulty, two consecutive faulty observations increment `persistent_faults`
twice (here from 0 to 2), not exactly once. -/
theorem C2_counterexample :
    pfOf (applyObs (applyObs (store1 Status.faulty 0)
        (Obs.mark oidA Status.faulty 1 "t1" "t2" oidB))
        (Obs.mark oidA Status.faulty 2 "t3" "t4" oidC)) oidA = 2 ∧
    pfOf (store1 Status.faulty 0) oidA + 1 ≠ 2 := by
  decide

/-- C2 (amended): for every existing section whose persisted status is
`safe`, a faulty observation immediately followed by a second faulty
observation increments `persistent_faults` exactly once from its value
prior to the first call, and appends exactly two Inspection records. -/
theorem C2_amended_double_fault (st : Store) (id : String) (s : Section)
    (hv : isValidOid id = true) (hs : findDoc st.sections id = some s)
    (hsafe : s.status = Status.safe)
    (o1 o2 : Obs) (h1t : obsTarget o1 = id) (h1s : obsStatus o1 = Status.faulty)
    (h2t : obsTarget o2 = id) (h2s : obsStatus o2 = Status.faulty) :
    pfOf (applyObs (applyObs st o1) o2) id = pfOf st id + 1 ∧
    (applyObs (applyObs st o1) o2).inspections =
      st.inspections ++ [obsInspection o1, obsInspection o2] := by
  subst h1t
  have he1 := obs_found_effect st o1 s hv hs
  have hsec1 : (applyObs st o1).sections =
      updateFirst st.sections (obsTarget o1) (fun _ => obsNewSection o1 s) := by
    rw [applyObs, he1]
  have hins1 : (applyObs st o1).inspections = st.inspections ++ [obsInspection o1] := by
    rw [applyObs, he1]
  have hs1 : findDoc (applyObs st o1).sections (obsTarget o1) = some (obsNewSection o1 s) := by
    rw [hsec1, findDoc_updateFirst_self, hs]
    rfl
  have hv2 : isValidOid (obsTarget o2) = true := by rw [h2t]; exact hv
  have hs2 : findDoc (applyObs st o1).sections (obsTarget o2) = some (obsNewSection o1 s) := by
    rw [h2t]; exact hs1
  have he2 := obs_found_effect (applyObs st o1) o2 (obsNewSection o1 s) hv2 hs2
  have hsec2 : (applyObs (applyObs st o1) o2).sections =
      updateFirst (applyObs st o1).sections (obsTarget o2)
        (fun _ => obsNewSection o2 (obsNewSection o1 s)) := by
    rw [applyObs, he2]
  have hins2 : (applyObs (applyObs st o1) o2).inspections =
      (applyObs st o1).inspections ++ [obsInspection o2] := by
    rw [applyObs, he2]
  constructor
  · have hfin : findDoc (applyObs (applyObs st o1) o2).sections (obsTarget o1) =
        some (obsNewSection o2 (obsNewSection o1 s)) := by
      rw [hsec2, h2t, findDoc_updateFirst_self, hs1]
      rfl
    simp [pfOf, hfin, hs, obsNewSection, h1s, h2s, hsafe]
  · rw [hins2, hins1]
    simp

/-- Witness for the amended C2 at a concrete store: one safe section,
a faulty mark followed by a faulty inspect. -/
theorem C2_amended_double_fault_witness :
    pfOf (applyObs (applyObs (store1 Status.safe 0)
          (Obs.mark oidA Status.faulty 1 "t1" "t2" oidB))
        (Obs.insp oidA Status.faulty none 2 "t3" oidC)) oidA
      = pfOf (store1 Status.safe 0) oidA + 1 ∧
    (applyObs (applyObs (store1 Status.safe 0)
          (Obs.mark oidA Status.faulty 1 "t1" "t2" oidB))
        (Obs.insp oidA Status.faulty none 2 "t3" oidC)).inspections =
      (store1 Status.safe 0).inspections ++
        [obsInspection (Obs.mark oidA Status.faulty 1 "t1" "t2" oidB),
         obsInspection (Obs.insp oidA Status.faulty none 2 "t3" oidC)] :=
  C2_amended_double_fault (store1 Status.safe 0) oidA (sampleSection Status.safe 0)
    (by decide) (by decide) rfl
    (Obs.mark oidA Status.faulty 1 "t1" "t2" oidB)
    (Obs.insp oidA Status.faulty none 2 "t3" oidC) rfl rfl rfl rfl

/-- C3: a `recordObservation` call on an existing section appends exactly
one alert — referencing the section, severity `"high"`, unacknowledged —
iff the observed status is faulty, and appends no alert when the observed
status is safe. -/
theorem C3_alert_iff_faulty (st : Store) (o : Obs) (s : Section)
    (hv : isValidOid (obsTarget o) = true)
    (hs : findDoc st.sections (obsTarget o) = some s) :
    (obsStatus o = Status.faulty →
      (applyObs st o).alerts = st.alerts ++ [(obsAlertId o, obsAlert o s)] ∧
      (obsAlert o s).section_id = obsTarget o ∧
      (obsAlert o s).severity = "high" ∧
      (obsAlert o s).acknowledged = false) ∧
    (obsStatus o = Status.safe → (applyObs st o).alerts = st.alerts) := by
  have he := obs_found_effect st o s hv hs
  constructor
  · intro hf
    refine ⟨?_, ?_, ?_, ?_⟩
    · rw [applyObs, he]
      simp [hf]
    · cases o <;> rfl
    · cases o <;> rfl
    · cases o <;> rfl
  · intro hsafe
    rw [applyObs, he]
    simp [hsafe]

/-- Witness for C3: a faulty mark on a safe section appends exactly the
expected alert document. -/
theorem C3_alert_iff_faulty_witness :
    (applyObs (store1 Status.safe 0) (Obs.mark oidA Status.faulty 1 "t1" "t2" oidB)).alerts =
      (store1 Status.safe 0).alerts ++
        [(obsAlertId (Obs.mark oidA Status.faulty 1 "t1" "t2" oidB),
          obsAlert (Obs.mark oidA Status.faulty 1 "t1" "t2" oidB) (sampleSection Status.safe 0))] ∧
    (obsAlert (Obs.mark oidA Status.faulty 1 "t1" "t2" oidB)
        (sampleSection Status.safe 0)).section_id =
      obsTarget (Obs.mark oidA Status.faulty 1 "t1" "t2" oidB) ∧
    (obsAlert (Obs.mark oidA Status.faulty 1 "t1" "t2" oidB)
        (sampleSection Status.safe 0)).severity = "high" ∧
    (obsAlert (Obs.mark oidA Status.faulty 1 "t1" "t2" oidB)
        (sampleSection Status.safe 0)).acknowledged = false :=
  (C3_alert_iff_faulty (store1 Status.safe 0) (Obs.mark oidA Status.faulty 1 "t1" "t2" oidB)
    (sampleSection Status.safe 0) (by decide) (by decide)).1 rfl

/-- C4: a `recordObservation` call with a well-formed id that matches no
section fails with NotFound and performs no write: the store afterwards
has the same inspections, alerts and sections. -/
theorem C4_notfound_no_writes (st : Store) (o : Obs)
    (hv : isValidOid (obsTarget o) = true)
    (hn : findDoc st.sections (obsTarget o) = none) :
    (applyObsFull st o).2 = ApiResult.err Err.notFound ∧
    (applyObsFull st o).1.inspections = st.inspections ∧
    (applyObsFull st o).1.alerts = st.alerts ∧
    (applyObsFull st o).1.sections = st.sections := by
  rw [obs_notfound_effect st o hv hn]
  exact ⟨rfl, rfl, rfl, rfl⟩

/-- Witness for C4: a faulty inspect against an absent (but well-formed)
id on a one-section store changes nothing and reports NotFound. -/
theorem C4_notfound_no_writes_witness :
    (applyObsFull (store1 Status.safe 0) (Obs.insp oidB Status.faulty none 1 "t1" oidC)).2 =
      ApiResult.err Err.notFound ∧
    (applyObsFull (store1 Status.safe 0) (Obs.insp oidB Status.faulty none 1 "t1" oidC)).1.inspections =
      (store1 Status.safe 0).inspections ∧
    (applyObsFull (store1 Status.safe 0) (Obs.insp oidB Status.faulty none 1 "t1" oidC)).1.alerts =
      (store1 Status.safe 0).alerts ∧
    (applyObsFull (store1 Status.safe 0) (Obs.insp oidB Status.faulty none 1 "t1" oidC)).1.sections =
      (store1 Status.safe 0).sections :=
  C4_notfound_no_writes (store1 Status.safe 0) (Obs.insp oidB Status.faulty none 1 "t1" oidC)
    (by decide) (by decide)

/-- The store with all three collections empty. -/
def emptyStore : Store := { sections := [], inspections := [], alerts := [] }

/-- A `SectionUpdate` payload with every field absent. -/
def emptyPayload : SectionUpdatePayload :=
  { name := none, status := none, color_safe := none, color_faulty := none }

/-- A payload patching only the status to faulty. -/
def faultyPatch : SectionUpdatePayload :=
  { name := none, status := some Status.faulty, color_safe := none, color_faulty := none }

/-- C5 fails as stated: a patch whose payload carries no recognized field
skips both the stamp and the existence check.  On an existing section it
leaves `updated_at` at 0 instead of stamping the call time 7, and on an
id (here `"zz"`) matching no section it succeeds with
`{"updated": false}` instead of failing with NotFound. -/
theorem C5_counterexample :
    update_section (store1 Status.safe 0) oidA emptyPayload 7 =
      (store1 Status.safe 0, ApiResult.ok Resp.updatedFalse) ∧
    (findDoc (update_section (store1 Status.safe 0) oidA emptyPayload 7).1.sections oidA).map
      (fun s => s.updated_at) = some 0 ∧
    (0 : Nat) ≠ 7 ∧
    update_section emptyStore "zz" emptyPayload 7 =
      (emptyStore, ApiResult.ok Resp.updatedFalse) ∧
    ApiResult.ok Resp.updatedFalse ≠ ApiResult.err Err.notFound := by
  decide

/-- C5 (amended): a `patchSection` call with at least one recognized
field stamps `updated_at = now` on the section it stores and returns, and
fails with NotFound when its well-formed id matches no section; a call
with no recognized fields returns `{"updated": false}` and writes
nothing. -/
theorem C5_amended_patch (st : Store) (id : String) (p : SectionUpdatePayload) (now : Nat) :
    (hasUpdates p = true → isValidOid id = true → findDoc st.sections id = none →
      update_section st id p now = (st, ApiResult.err Err.notFound)) ∧
    (∀ s : Section, hasUpdates p = true → isValidOid id = true →
      findDoc st.sections id = some s →
      update_section st id p now =
        ({ st with sections := updateFirst st.sections id (fun _ => applyUpdates s p now) },
         ApiResult.ok (Resp.sectionDoc (applyUpdates s p now))) ∧
      (applyUpdates s p now).updated_at = now) ∧
    (hasUpdates p = false →
      update_section st id p now = (st, ApiResult.ok Resp.updatedFalse)) := by
  refine ⟨?_, ?_, ?_⟩
  · intro hp hv hn
    simp [update_section, hp, hv, hn]
  · intro s hp hv hs
    have h2 : findDoc (updateFirst st.sections id (fun _ => applyUpdates s p now)) id =
        some (applyUpdates s p now) := by
      rw [findDoc_updateFirst_self, hs]
      rfl
    exact ⟨by simp [update_section, hp, hv, hs, h2], rfl⟩
  · intro hp
    simp [update_section, hp]

/-- Witness for the amended C5: renaming the sample section stamps
`updated_at`, and the same patch against an absent id is a NotFound. -/
theorem C5_amended_patch_witness :
    (update_section (store1 Status.safe 0) oidA
        { name := some "S2", status := none, color_safe := none, color_faulty := none } 9 =
      ({ store1 Status.safe 0 with
          sections := updateFirst (store1 Status.safe 0).sections oidA
            (fun _ => applyUpdates (sampleSection Status.safe 0)
              { name := some "S2", status := none, color_safe := none, color_faulty := none } 9) },
        ApiResult.ok (Resp.sectionDoc (applyUpdates (sampleSection Status.safe 0)
          { name := some "S2", status := none, color_safe := none, color_faulty := none } 9))) ∧
      (applyUpdates (sampleSection Status.safe 0)
        { name := some "S2", status := none, color_safe := none, color_faulty := none } 9).updated_at = 9) ∧
    update_section (store1 Status.safe 0) oidB
      { name := some "S2", status := none, color_safe := none, color_faulty := none } 9 =
      (store1 Status.safe 0, ApiResult.err Err.notFound) :=
  ⟨(C5_amended_patch (store1 Status.safe 0) oidA
      { name := some "S2", status := none, color_safe := none, color_faulty := none } 9).2.1
      (sampleSection Status.safe 0) (by decide) (by decide) (by decide),
   (C5_amended_patch (store1 Status.safe 0) oidB
      { name := some "S2", status := none, color_safe := none, color_faulty := none } 9).1
      (by decide) (by decide) (by decide)⟩

/-- C6 fails as stated: the `inspect` entry point of `recordObservation`
answers `{"created": true}`, not the freshly reloaded section state,
even though the store now holds the updated section. -/
theorem C6_counterexample :
    (inspect (store1 Status.safe 0) oidA Status.safe none 5 "iso" oidB).2 =
      ApiResult.ok Resp.created ∧
    findDoc (inspect (store1 Status.safe 0) oidA Status.safe none 5 "iso" oidB).1.sections oidA =
      some { sampleSection Status.safe 0 with last_check := some "iso", updated_at := 5 } ∧
    ApiResult.ok Resp.created ≠
      ApiResult.ok (Resp.sectionDoc
        { sampleSection Status.safe 0 with last_check := some "iso", updated_at := 5 }) := by
  decide

/-- C6 (amended): on an existing section both entry points apply the same
status/`last_check`/`persistent_faults` update, but only `mark` returns
the freshly reloaded section state; `inspect` returns `{"created":
true}`. -/
theorem C6_amended_return (st : Store) (id : String) (s : Section)
    (hv : isValidOid id = true) (hs : findDoc st.sections id = some s)
    (v : Status) (now : Nat) (t1 t2 aid : String) (d : Option String) (iso : String) :
    ((mark_section st id v now t1 t2 aid).2 =
        ApiResult.ok (Resp.sectionDoc (obsNewSection (Obs.mark id v now t1 t2 aid) s)) ∧
      findDoc (mark_section st id v now t1 t2 aid).1.sections id =
        some (obsNewSection (Obs.mark id v now t1 t2 aid) s) ∧
      (obsNewSection (Obs.mark id v now t1 t2 aid) s).status = v ∧
      (obsNewSection (Obs.mark id v now t1 t2 aid) s).last_check = some t1 ∧
      (obsNewSection (Obs.mark id v now t1 t2 aid) s).persistent_faults =
        (if s.status == Status.faulty && v == Status.faulty then s.persistent_faults + 1
          else s.persistent_faults)) ∧
    (inspect st id v d now iso aid).2 = ApiResult.ok Resp.created := by
  have hm := obs_found_effect st (Obs.mark id v now t1 t2 aid) s hv hs
  have hi := obs_found_effect st (Obs.insp id v d now iso aid) s hv hs
  have hm1 : mark_section st id v now t1 t2 aid = applyObsFull st (Obs.mark id v now t1 t2 aid) := rfl
  have hi1 : inspect st id v d now iso aid = applyObsFull st (Obs.insp id v d now iso aid) := rfl
  refine ⟨⟨?_, ?_, rfl, rfl, rfl⟩, ?_⟩
  · rw [hm1, hm]
    rfl
  · rw [hm1, hm]
    show findDoc (updateFirst st.sections (obsTarget (Obs.mark id v now t1 t2 aid))
      (fun _ => obsNewSection (Obs.mark id v now t1 t2 aid) s)) id = _
    rw [show obsTarget (Obs.mark id v now t1 t2 aid) = id from rfl,
      findDoc_updateFirst_self, hs]
    rfl
  · rw [hi1, hi]
    rfl

/-- Witness for the amended C6 on the sample store: a faulty mark returns
the updated section, a faulty inspect returns the created marker. -/
theorem C6_amended_return_witness :
    ((mark_section (store1 Status.safe 0) oidA Status.faulty 3 "t1" "t2" oidB).2 =
        ApiResult.ok (Resp.sectionDoc
          (obsNewSection (Obs.mark oidA Status.faulty 3 "t1" "t2" oidB)
            (sampleSection Status.safe 0))) ∧
      findDoc (mark_section (store1 Status.safe 0) oidA Status.faulty 3 "t1" "t2" oidB).1.sections
          oidA =
        some (obsNewSection (Obs.mark oidA Status.faulty 3 "t1" "t2" oidB)
          (sampleSection Status.safe 0)) ∧
      (obsNewSection (Obs.mark oidA Status.faulty 3 "t1" "t2" oidB)
          (sampleSection Status.safe 0)).status = Status.faulty ∧
      (obsNewSection (Obs.mark oidA Status.faulty 3 "t1" "t2" oidB)
          (sampleSection Status.safe 0)).last_check = some "t1" ∧
      (obsNewSection (Obs.mark oidA Status.faulty 3 "t1" "t2" oidB)
          (sampleSection Status.safe 0)).persistent_faults =
        (if (sampleSection Status.safe 0).status == Status.faulty &&
              Status.faulty == Status.faulty then
            (sampleSection Status.safe 0).persistent_faults + 1
          else (sampleSection Status.safe 0).persistent_faults)) ∧
    (inspect (store1 Status.safe 0) oidA Status.faulty none 3 "t3" oidB).2 =
      ApiResult.ok Resp.created :=
  C6_amended_return (store1 Status.safe 0) oidA (sampleSection Status.safe 0)
    (by decide) (by decide) Status.faulty 3 "t1" "t2" oidB none "t3"

/-- C7: a `patchSection` call leaves every section's `persistent_faults`
unchanged, whatever the payload (a `status := faulty` patch included):
the fault-accumulation rule never runs on this path. -/
theorem C7_patch_preserves_pf (st : Store) (id k : String)
    (p : SectionUpdatePayload) (now : Nat) :
    pfOf (update_section st id p now).1 k = pfOf st k := by
  by_cases hp : hasUpdates p = true
  · by_cases hv : isValidOid id = true
    · cases hs : findDoc st.sections id with
      | none => simp [update_section, hp, hv, hs]
      | some s =>
          have h2 : findDoc (updateFirst st.sections id (fun _ => applyUpdates s p now)) id =
              some (applyUpdates s p now) := by
            rw [findDoc_updateFirst_self, hs]
            rfl
          by_cases hk : k = id
          · subst hk
            simp only [update_section, hp, hv, hs, h2, if_true, pfOf]
            simp [applyUpdates]
          · simp [update_section, hp, hv, hs, h2, pfOf,
              findDoc_updateFirst_ne st.sections id k _ hk]
    · rw [Bool.not_eq_true] at hv
      simp [update_section, hp, hv]
  · rw [Bool.not_eq_true] at hp
    simp [update_section, hp]

/-- C8: `summarize` returns the number of sections as `total`, the counts
of safe and faulty sections, and the count of sections with at least 3
persistent faults as `critical`; the embedding is a pure function of the
store, so it performs no writes. -/
theorem C8_summary_counts (st : Store) :
    (summary st).total = st.sections.length ∧
    (summary st).safe = st.sections.countP (fun q => q.2.status == Status.safe) ∧
    (summary st).faulty = st.sections.countP (fun q => q.2.status == Status.faulty) ∧
    (summary st).critical = st.sections.countP (fun q => decide (3 ≤ q.2.persistent_faults)) := by
  refine ⟨?_, ?_, ?_, ?_⟩ <;>
    simp [summary, count_documents, sectionMatches, List.countP_eq_length_filter]

/-- Effect of `ack_alert` on a store holding the alert: the first
matching alert is rewritten with `acknowledged := true` and the call
answers `{"acknowledged": true}`. -/
theorem ack_found_effect (st : Store) (id : String) (a : Alert)
    (hv : isValidOid id = true) (ha : findDoc st.alerts id = some a) :
    ack_alert st id =
      ({ st with alerts := updateFirst st.alerts id (fun x => { x with acknowledged := true }) },
       ApiResult.ok Resp.acknowledged) ∧
    findDoc (ack_alert st id).1.alerts id = some { a with acknowledged := true } := by
  have h1 : ack_alert st id =
      ({ st with alerts := updateFirst st.alerts id (fun x => { x with acknowledged := true }) },
       ApiResult.ok Resp.acknowledged) := by
    simp [ack_alert, hv, ha]
  refine ⟨h1, ?_⟩
  rw [h1]
  show findDoc (updateFirst st.alerts id (fun x => { x with acknowledged := true })) id = _
  rw [findDoc_updateFirst_self, ha]
  rfl

/-- C9: acknowledging an existing alert (well-formed id) succeeds and
stores `acknowledged := true`; repeating the acknowledgement succeeds
again and the alert stays acknowledged (idempotent); a well-formed id
matching no alert fails with NotFound (a malformed id fails with
InvalidArgument even earlier). -/
theorem C9_ack_idempotent (st : Store) (id : String) :
    (∀ a : Alert, isValidOid id = true → findDoc st.alerts id = some a →
      (ack_alert st id).2 = ApiResult.ok Resp.acknowledged ∧
      findDoc (ack_alert st id).1.alerts id = some { a with acknowledged := true } ∧
      (ack_alert (ack_alert st id).1 id).2 = ApiResult.ok Resp.acknowledged ∧
      findDoc (ack_alert (ack_alert st id).1 id).1.alerts id =
        some { a with acknowledged := true }) ∧
    (isValidOid id = true → findDoc st.alerts id = none →
      ack_alert st id = (st, ApiResult.err Err.notFound)) ∧
    (isValidOid id = false → ack_alert st id = (st, ApiResult.err Err.invalidArgument)) := by
  refine ⟨?_, ?_, ?_⟩
  · intro a hv ha
    obtain ⟨h1, h3⟩ := ack_found_effect st id a hv ha
    obtain ⟨h4, h5⟩ := ack_found_effect (ack_alert st id).1 id
      { a with acknowledged := true } hv h3
    refine ⟨?_, h3, ?_, h5⟩
    · rw [h1]
    · rw [h4]
  · intro hv hn
    simp [ack_alert, hv, hn]
  · intro hv
    simp [ack_alert, hv]

/-- A sample unacknowledged alert document. -/
def sampleAlert : Alert :=
  { section_id := oidA, message := "Fault detected at section S1.",
    severity := "high", acknowledged := false, created_at := 1 }

/-- A store holding exactly one (unacknowledged) alert, keyed `oidB`. -/
def alertStore : Store :=
  { sections := [], inspections := [], alerts := [(oidB, sampleAlert)] }

/-- Witness for C9 on a one-alert store: acknowledging twice keeps the
alert acknowledged, and a fresh id is a NotFound. -/
theorem C9_ack_idempotent_witness :
    ((ack_alert alertStore oidB).2 = ApiResult.ok Resp.acknowledged ∧
      findDoc (ack_alert alertStore oidB).1.alerts oidB =
        some { sampleAlert with acknowledged := true } ∧
      (ack_alert (ack_alert alertStore oidB).1 oidB).2 = ApiResult.ok Resp.acknowledged ∧
      findDoc (ack_alert (ack_alert alertStore oidB).1 oidB).1.alerts oidB =
        some { sampleAlert with acknowledged := true }) ∧
    ack_alert alertStore oidC = (alertStore, ApiResult.err Err.notFound) :=
  ⟨(C9_ack_idempotent alertStore oidB).1 sampleAlert (by decide) (by decide),
   (C9_ack_idempotent alertStore oidC).2.1 (by decide) (by decide)⟩

/-- C10: a `patchSection` call whose payload has no recognized fields
returns `{"updated": false}` and leaves the store untouched, for every
id — malformed and absent ids included — with no id validation, no
NotFound, and no `updated_at` stamp. -/
theorem C10_empty_patch_updates_false (st : Store) (id : String) (now : Nat) :
    update_section st id emptyPayload now = (st, ApiResult.ok Resp.updatedFalse) := by
  simp [update_section, emptyPayload, hasUpdates]

end Railway
